import Mathlib

/-!
Shallow embedding of the Mightex TCE-1304-U userland driver core
(`src/mightex1304.h` and the spec of its acquisition / processing pipeline).

Only the public header and a thin C++ wrapper are present in the sources;
the C implementation behind the declared functions is not. Constants, type
shapes and function signatures below are taken from `mightex1304.h`; the
behavior of each operation is modelled from the spec, as flagged in the
individual doc comments.

Machine integers (`uint16_t` samples, counters) are modelled as `Nat`;
the estimator scalar (`double` in C) is modelled as `ℚ`; fallible calls
return an `Except` result paired with the post-state, which models the
C API mutating the session in place.
-/

namespace Mightex

/-- `MTX_PIXELS` from mightex1304.h: number of standard pixels. -/
def MTX_PIXELS : Nat := 3648

/-- `MTX_DARK_PIXELS` from mightex1304.h: number of light-shielded pixels,
whose values are averaged to estimate the dark current. -/
def MTX_DARK_PIXELS : Nat := 13

/-- `mtx_mode_t` from mightex1304.h: continuous or triggered operation. -/
inductive mtx_mode_t
  | MTX_NORMAL_MODE
  | MTX_TRIGGER_MODE
deriving DecidableEq, Repr

/-- Error taxonomy, from the spec (§7 ERROR HANDLING DESIGN). -/
inductive MtxError
  | TransportError
  | NoFrameAvailable
  | InvalidFrameSize
  | InvalidConfiguration
deriving DecidableEq, Repr

/-- FrameStore (spec §4.1): raw and working pixel buffers, hardware
timestamp and the dark mean of the most recent capture. -/
structure FrameStore where
  raw : List Nat
  working : List Nat
  timestamp : Nat
  darkMean : Nat
deriving DecidableEq, Repr

/-- Modelled from the spec: the dark-pixel subset is a fixed contiguous
slice of `MTX_DARK_PIXELS` samples of the raw frame; the exact offset is a
hardware property the spec leaves open (§9), modelled here as the leading
13 samples. -/
def darkSlice (rawSamples : List Nat) : List Nat :=
  rawSamples.take MTX_DARK_PIXELS

/-- Modelled from the spec: `FrameStore.captureInto` (§4.1); the C
implementation of `mightex_read_frame`'s frame storage is not in the
sources. Stores the samples as `raw`, copies them into `working`, computes
`darkMean` as the rounded-toward-zero mean of the dark pixels (`Nat`
division), records the timestamp; rejects a wrong-sized sample sequence
with `InvalidFrameSize`, leaving the store unmodified. -/
def captureInto (fs : FrameStore) (rawSamples : List Nat) (ts : Nat) :
    Except MtxError FrameStore :=
  if rawSamples.length = MTX_PIXELS then
    .ok { raw := rawSamples
          working := rawSamples
          timestamp := ts
          darkMean := (darkSlice rawSamples).sum / MTX_DARK_PIXELS }
  else
    .error .InvalidFrameSize

/-- `mightex_filter_t` from mightex1304.h: a filter maps the working
buffer (given the session's dark mean) to a new working buffer, in place.
User data is threaded by the caller and plays no role in the claims. -/
def Filter : Type := Nat → List Nat → List Nat

/-- `mightex_estimator_t` from mightex1304.h: an estimator reduces the
working buffer (given the dark mean) to a scalar, with no side effects. -/
def Estimator : Type := Nat → List Nat → ℚ

/-- Modelled from the spec: the default filter subtracts `darkMean` from
every working sample, clamping at zero (`Nat` subtraction truncates at
zero, which is exactly the clamp; no unsigned wraparound). -/
def defaultFilter : Filter :=
  fun darkMean working => working.map (fun v => v - darkMean)

/-- Modelled from the spec: the accumulation loop of the default
estimator. Walks the working buffer carrying the index `i0` of the head
element; a sample at or above the threshold contributes `value * index` to
the first (numerator) component and `value` to the second (denominator)
component; a sample below threshold contributes to neither. -/
def estAccum (thr : Nat) : List Nat → Nat → Nat × Nat
  | [], _ => (0, 0)
  | v :: rest, i0 =>
    let acc := estAccum thr rest (i0 + 1)
    if thr ≤ v then (v * i0 + acc.1, v + acc.2) else acc

/-- Modelled from the spec: the default estimator is the weighted mean of
the working samples thresholded at three times the dark mean (§4.3 and the
doc of `mightex_reset_estimator`); when no sample reaches the threshold
the denominator is zero and the estimator returns `0.0` instead of
dividing. -/
def defaultEstimator : Estimator :=
  fun darkMean working =>
    let acc := estAccum (3 * darkMean) working 0
    if acc.2 = 0 then 0 else (acc.1 : ℚ) / (acc.2 : ℚ)

/-- GPIO commands issued to the transport collaborator; the log of issued
commands models whether a transport call was made. -/
inductive GpioCmd
  | write (reg val : Nat)
  | read (reg : Nat)
deriving DecidableEq, Repr

/-- The external USB/transport collaborator, as the spec assumes it (§1):
a queued-frame depth (negative signals a transport fault), the next
queued frame's samples and hardware timestamp, accept/reject predicates
for configuration commands, GPIO levels, and a log of issued GPIO
commands. -/
structure Transport where
  queuedFrameCount : Int
  frameSamples : List Nat
  frameTimestamp : Nat
  acceptExptime : ℚ → Bool
  acceptMode : mtx_mode_t → Bool
  gpioLevel : Nat → Nat
  gpioLog : List GpioCmd

/-- The driver session behind the opaque `mightex_t` handle: frame store,
configuration, and the pluggable filter / estimator strategies (spec §3
DeviceSession). Identity strings play no role in the claims. -/
structure Session where
  store : FrameStore
  exptime : ℚ
  mode : mtx_mode_t
  activeFilter : Option Filter
  activeEstimator : Estimator

/-- Modelled from the spec: the frame store before the first capture is a
deterministic zeroed buffer (§3 Lifecycle). -/
def initFrameStore : FrameStore :=
  { raw := List.replicate MTX_PIXELS 0
    working := List.replicate MTX_PIXELS 0
    timestamp := 0
    darkMean := 0 }

/-- `mightex_new` from mightex1304.h; modelled from the spec: a fresh
session starts in normal mode with the default filter and estimator
active. -/
def mightex_new : Session :=
  { store := initFrameStore
    exptime := 0
    mode := .MTX_NORMAL_MODE
    activeFilter := some defaultFilter
    activeEstimator := defaultEstimator }

/-- `mightex_read_frame` from mightex1304.h; behavior modelled from the
spec (§4.4 `readFrame`): fails with `NoFrameAvailable` when the transport
reports a queued frame count `≤ 0`; otherwise pulls the queued frame's
samples and timestamp and forwards them to `captureInto`. The returned
session is the post-state (the C call mutates the handle in place). -/
def mightex_read_frame (t : Transport) (s : Session) :
    Except MtxError Unit × Session :=
  if t.queuedFrameCount ≤ 0 then
    (.error .NoFrameAvailable, s)
  else
    match captureInto s.store t.frameSamples t.frameTimestamp with
    | .ok fs => (.ok (), { s with store := fs })
    | .error e => (.error e, s)

/-- `mightex_set_exptime` from mightex1304.h; behavior modelled from the
spec (§4.4): stages the new exposure time on transport acceptance, fails
with `TransportError` on rejection, leaving the prior value unchanged. -/
def mightex_set_exptime (t : Transport) (s : Session) (x : ℚ) :
    Except MtxError Unit × Session :=
  if t.acceptExptime x then
    (.ok (), { s with exptime := x })
  else
    (.error .TransportError, s)

/-- `mightex_set_mode` from mightex1304.h; behavior modelled from the
spec (§4.4): transitions the mode on transport acceptance, fails with
`TransportError` on rejection, leaving the prior mode unchanged. -/
def mightex_set_mode (t : Transport) (s : Session) (mo : mtx_mode_t) :
    Except MtxError Unit × Session :=
  if t.acceptMode mo then
    (.ok (), { s with mode := mo })
  else
    (.error .TransportError, s)

/-- `mightex_set_filter` from mightex1304.h: replaces the active filter;
`none` (NULL in C) disables filtering. -/
def mightex_set_filter (s : Session) (f : Option Filter) : Session :=
  { s with activeFilter := f }

/-- `mightex_reset_filter` from mightex1304.h: restores the default
dark-subtraction filter. -/
def mightex_reset_filter (s : Session) : Session :=
  { s with activeFilter := some defaultFilter }

/-- `mightex_apply_filter` from mightex1304.h; behavior modelled from the
spec (§4.2 `apply`): invokes the active filter, if any, on the working
buffer in place; raw data is untouched. -/
def mightex_apply_filter (s : Session) : Session :=
  match s.activeFilter with
  | some f => { s with store := { s.store with working := f s.store.darkMean s.store.working } }
  | none => s

/-- `mightex_set_estimator` from mightex1304.h: replaces the active
estimator. -/
def mightex_set_estimator (s : Session) (e : Estimator) : Session :=
  { s with activeEstimator := e }

/-- `mightex_reset_estimator` from mightex1304.h: restores the default
thresholded-weighted-mean estimator. -/
def mightex_reset_estimator (s : Session) : Session :=
  { s with activeEstimator := defaultEstimator }

/-- `mightex_apply_estimator` from mightex1304.h; behavior modelled from
the spec (§4.3 `apply`): returns the scalar of the active estimator on
the working buffer; does not mutate any stored state. -/
def mightex_apply_estimator (s : Session) : ℚ :=
  s.activeEstimator s.store.darkMean s.store.working

/-- `mightex_frame_p` from mightex1304.h: view of the working (filtered)
buffer of the last frame. -/
def mightex_frame (s : Session) : List Nat :=
  s.store.working

/-- `mightex_raw_frame_p` from mightex1304.h: view of the raw buffer of
the last frame. -/
def mightex_raw_frame (s : Session) : List Nat :=
  s.store.raw

/-- `mightex_frame_timestamp` from mightex1304.h. -/
def mightex_frame_timestamp (s : Session) : Nat :=
  s.store.timestamp

/-- `mightex_dark_mean` from mightex1304.h. -/
def mightex_dark_mean (s : Session) : Nat :=
  s.store.darkMean

/-- `mightex_gpio_write` from mightex1304.h (return type `void`, hence
`Unit`); behavior modelled from the spec (§4.5, §7): a register in 0–3
issues a write command to the transport and sets the level; an
out-of-range register is rejected before any transport call is issued
(transport state and command log untouched). No failure result can be
surfaced: the C function returns void. -/
def mightex_gpio_write (t : Transport) (reg val : Nat) : Unit × Transport :=
  if reg < 4 then
    ((), { t with
           gpioLevel := fun r => if r = reg then val else t.gpioLevel r
           gpioLog := t.gpioLog ++ [GpioCmd.write reg val] })
  else
    ((), t)

/-- `mightex_gpio_read` from mightex1304.h (return type `BYTE`, a level
0 or 1); behavior modelled from the spec (§4.5, §7): a register in 0–3
issues a read command to the transport and returns the last-observed
level; an out-of-range register is rejected before any transport call is
issued. The level returned in that case is unspecified by both the
header and the spec; this model returns 0 purely as a totality default,
and no theorem relies on that value. The `BYTE` return carries only a
level, no distinct failure encoding. -/
def mightex_gpio_read (t : Transport) (reg : Nat) : Nat × Transport :=
  if reg < 4 then
    (t.gpioLevel reg, { t with gpioLog := t.gpioLog ++ [GpioCmd.read reg] })
  else
    (0, t)

/-- A processing call on a captured frame: one `mightex_apply_filter` or
one `mightex_apply_estimator` invocation. -/
inductive ProcOp
  | applyFilter
  | applyEstimator
deriving DecidableEq, Repr

/-- Run a finite sequence of processing calls against a session. The
estimator is a pure reduction, so its call returns the session it was
given (its scalar result is bound and discarded here). -/
def runProc (s : Session) : List ProcOp → Session
  | [] => s
  | .applyFilter :: rest => runProc (mightex_apply_filter s) rest
  | .applyEstimator :: rest =>
      runProc ((fun _ => s) (mightex_apply_estimator s)) rest

/-! Concrete transports and sessions used to witness the theorems below. -/

/-- A healthy transport: two queued frames, a full uniform frame of value
1000, timestamp 42, accepting nonnegative exposure times and every mode. -/
def T1 : Transport :=
  { queuedFrameCount := 2
    frameSamples := List.replicate MTX_PIXELS 1000
    frameTimestamp := 42
    acceptExptime := fun x => decide (0 ≤ x)
    acceptMode := fun _ => true
    gpioLevel := fun _ => 0
    gpioLog := [] }

/-- The transport of `T1` with an empty queue. -/
def T0 : Transport :=
  { T1 with queuedFrameCount := 0 }

/-- A faulty transport: frames are queued but the pulled sample sequence
is empty (wrong-sized), and every mode command is rejected. -/
def T2 : Transport :=
  { T1 with frameSamples := [], acceptMode := fun _ => false }

/-- A small session with a captured one-sample frame and dark mean 3,
default strategies active. -/
def S8 : Session :=
  { store := { raw := [10], working := [10], timestamp := 7, darkMean := 3 }
    exptime := 0
    mode := .MTX_NORMAL_MODE
    activeFilter := some defaultFilter
    activeEstimator := defaultEstimator }

/-! Helper lemmas. -/

/-- Truncated `Nat` subtraction, cast to `ℤ`, is subtraction clamped at
zero. -/
theorem natSub_cast_eq_max (a b : Nat) :
    ((a - b : Nat) : ℤ) = max ((a : ℤ) - (b : ℤ)) 0 := by
  rcases Nat.le_total b a with h | h
  · rw [Nat.cast_sub h, max_eq_left]
    omega
  · rw [Nat.sub_eq_zero_of_le h, max_eq_right] <;> omega

/-- `getD` at an in-range index commutes with `map` (for the default 0). -/
theorem getD_map_of_lt (f : Nat → Nat) (l : List Nat) (i : Nat)
    (h : i < l.length) : (l.map f).getD i 0 = f (l.getD i 0) := by
  rw [List.getD_eq_getElem (l.map f) 0 (by simpa using h),
      List.getD_eq_getElem l 0 h]
  simp

/-- `mightex_apply_filter` only rewrites the working buffer: raw data,
timestamp, dark mean, configuration and strategies are untouched. -/
theorem apply_filter_frame_effect (s : Session) :
    (mightex_apply_filter s).store.raw = s.store.raw ∧
    (mightex_apply_filter s).store.timestamp = s.store.timestamp ∧
    (mightex_apply_filter s).store.darkMean = s.store.darkMean ∧
    (mightex_apply_filter s).exptime = s.exptime ∧
    (mightex_apply_filter s).mode = s.mode ∧
    (mightex_apply_filter s).activeFilter = s.activeFilter ∧
    (mightex_apply_filter s).activeEstimator = s.activeEstimator := by
  rcases h : s.activeFilter with _ | f <;>
    simp [mightex_apply_filter, h]

/-- When the default filter is active, applying the filter maps every
working sample to its truncated difference with the dark mean. -/
theorem apply_filter_default_working (s : Session)
    (hf : s.activeFilter = some defaultFilter) :
    (mightex_apply_filter s).store.working =
      s.store.working.map (fun v => v - s.store.darkMean) := by
  simp [mightex_apply_filter, hf, defaultFilter]

/-! C1 -/

/-- C1: `mightex_read_frame` fails with `NoFrameAvailable` when the
transport's queued frame count is ≤ 0 (session untouched); on success it
stores the pulled 3648 samples as the new raw buffer, initializes the
working buffer as a verbatim copy of raw, computes the dark mean as the
rounded-toward-zero arithmetic mean of the 13 dark-pixel samples, and
records the hardware timestamp. -/
theorem read_frame_correct (t : Transport) (s : Session) :
    (t.queuedFrameCount ≤ 0 →
      mightex_read_frame t s = (.error .NoFrameAvailable, s)) ∧
    (0 < t.queuedFrameCount → t.frameSamples.length = MTX_PIXELS →
      mightex_read_frame t s =
        (.ok (), { s with store :=
          { raw := t.frameSamples
            working := t.frameSamples
            timestamp := t.frameTimestamp
            darkMean := (darkSlice t.frameSamples).sum / MTX_DARK_PIXELS } })) := by
  constructor
  · intro h
    simp [mightex_read_frame, h]
  · intro h hlen
    have h0 : ¬ t.queuedFrameCount ≤ 0 := by omega
    simp [mightex_read_frame, h0, captureInto, hlen]

/-- C1 witness: on the empty-queue transport `T0` the read fails with
`NoFrameAvailable`; on `T1` it succeeds and stores the uniform frame with
dark mean 1000 and timestamp 42. -/
theorem read_frame_correct_witness :
    mightex_read_frame T0 mightex_new = (.error .NoFrameAvailable, mightex_new) ∧
    mightex_read_frame T1 mightex_new =
      (.ok (), { mightex_new with store :=
        { raw := List.replicate MTX_PIXELS 1000
          working := List.replicate MTX_PIXELS 1000
          timestamp := 42
          darkMean := 1000 } }) := by
  constructor
  · exact (read_frame_correct T0 mightex_new).1 (by decide)
  · have hs : T1.frameSamples = List.replicate MTX_PIXELS 1000 := rfl
    have h := (read_frame_correct T1 mightex_new).2 (by decide)
      (by rw [hs]; simp)
    rw [h, hs]
    have hdark :
        (darkSlice (List.replicate MTX_PIXELS 1000)).sum / MTX_DARK_PIXELS = 1000 := by
      simp only [darkSlice, MTX_DARK_PIXELS, MTX_PIXELS, List.take_replicate,
        List.sum_replicate, smul_eq_mul]
      norm_num
    rw [hdark]
    rfl

/-! C2 -/

/-- C2: with the default filter active, applying the filter replaces every
working sample by the sample minus the dark mean clamped at zero (as an
integer identity: no unsigned wraparound below zero), and never increases
any sample's value. -/
theorem default_filter_clamped_subtract (s : Session)
    (hf : s.activeFilter = some defaultFilter)
    (i : Nat) (hi : i < s.store.working.length) :
    (((mightex_apply_filter s).store.working.getD i 0 : ℤ) =
      max ((s.store.working.getD i 0 : ℤ) - (s.store.darkMean : ℤ)) 0) ∧
    (mightex_apply_filter s).store.working.getD i 0 ≤
      s.store.working.getD i 0 := by
  have hg : (mightex_apply_filter s).store.working.getD i 0 =
      s.store.working.getD i 0 - s.store.darkMean := by
    rw [apply_filter_default_working s hf, getD_map_of_lt _ _ _ hi]
  constructor
  · rw [hg, natSub_cast_eq_max]
  · rw [hg]
    exact Nat.sub_le _ _

/-- C2 witness: on the one-sample session `S8` (sample 10, dark mean 3)
filtering gives 7 = max (10 - 3) 0 ≤ 10. -/
theorem default_filter_clamped_subtract_witness :
    (((mightex_apply_filter S8).store.working.getD 0 0 : ℤ) =
      max ((S8.store.working.getD 0 0 : ℤ) - (S8.store.darkMean : ℤ)) 0) ∧
    (mightex_apply_filter S8).store.working.getD 0 0 ≤
      S8.store.working.getD 0 0 :=
  default_filter_clamped_subtract S8 rfl 0 (by decide)

/-! C3 -/

/-- C3: the raw buffer returned by the raw-frame accessor is unchanged by
any finite sequence of `mightex_apply_filter` and
`mightex_apply_estimator` calls (whatever the active strategies);
timestamp and dark mean are likewise untouched — only the working buffer
is mutated by filters. -/
theorem raw_unchanged_by_processing (s : Session) (ops : List ProcOp) :
    mightex_raw_frame (runProc s ops) = mightex_raw_frame s ∧
    (runProc s ops).store.timestamp = s.store.timestamp ∧
    (runProc s ops).store.darkMean = s.store.darkMean := by
  induction ops generalizing s with
  | nil => exact ⟨rfl, rfl, rfl⟩
  | cons op rest ih =>
    cases op with
    | applyFilter =>
      have h := ih (mightex_apply_filter s)
      have he := apply_filter_frame_effect s
      simp only [runProc, mightex_raw_frame] at h ⊢
      exact ⟨h.1.trans he.1, h.2.1.trans he.2.1, h.2.2.trans he.2.2.1⟩
    | applyEstimator =>
      simpa only [runProc] using ih s

/-! C6 -/

/-- C6: failed calls are atomic: a `mightex_read_frame` that fails (empty
queue or wrong-sized sample sequence) returns the session unchanged, with
the previously stored frame intact; a rejected `mightex_set_exptime` or
`mightex_set_mode` leaves the prior exposure time and mode unchanged. -/
theorem failed_calls_atomic (t : Transport) (s : Session) (x : ℚ)
    (mo : mtx_mode_t) (e1 e2 e3 : MtxError) :
    ((mightex_read_frame t s).1 = .error e1 → (mightex_read_frame t s).2 = s) ∧
    ((mightex_set_exptime t s x).1 = .error e2 →
      (mightex_set_exptime t s x).2 = s) ∧
    ((mightex_set_mode t s mo).1 = .error e3 →
      (mightex_set_mode t s mo).2 = s) := by
  refine ⟨?_, ?_, ?_⟩
  · by_cases h : t.queuedFrameCount ≤ 0
    · intro _
      simp [mightex_read_frame, h]
    · cases hc : captureInto s.store t.frameSamples t.frameTimestamp with
      | ok fs =>
        intro habs
        simp [mightex_read_frame, h, hc] at habs
      | error e =>
        intro _
        simp [mightex_read_frame, h, hc]
  · by_cases h : t.acceptExptime x
    · intro habs
      simp [mightex_set_exptime, h] at habs
    · intro _
      simp [mightex_set_exptime, h]
  · by_cases h : t.acceptMode mo
    · intro habs
      simp [mightex_set_mode, h] at habs
    · intro _
      simp [mightex_set_mode, h]

/-- C6 witness: against the faulty transport `T2` (wrong-sized frame,
mode commands rejected) and a transport rejecting the exposure −5, each
failing call returns the fresh session unchanged. -/
theorem failed_calls_atomic_witness :
    (mightex_read_frame T2 mightex_new).2 = mightex_new ∧
    (mightex_set_exptime T2 mightex_new (-5)).2 = mightex_new ∧
    (mightex_set_mode T2 mightex_new .MTX_TRIGGER_MODE).2 = mightex_new := by
  have h := failed_calls_atomic T2 mightex_new (-5) .MTX_TRIGGER_MODE
    .InvalidFrameSize .TransportError .TransportError
  exact ⟨h.1 rfl, h.2.1 rfl, h.2.2 rfl⟩

/-! C7 -/

/-- `mightex_read_frame` never touches the active filter strategy. -/
theorem read_frame_preserves_filter (t : Transport) (s : Session) :
    (mightex_read_frame t s).2.activeFilter = s.activeFilter := by
  by_cases h : t.queuedFrameCount ≤ 0
  · simp [mightex_read_frame, h]
  · cases hc : captureInto s.store t.frameSamples t.frameTimestamp with
    | ok fs => simp [mightex_read_frame, h, hc]
    | error e => simp [mightex_read_frame, h, hc]

/-- C7: for the same raw input, calling `mightex_set_filter` with any
custom filter and then `mightex_reset_filter` before applying produces a
working buffer byte-identical to that of a session that never called
`mightex_set_filter`: the reset restores exactly the default
dark-subtraction behavior. -/
theorem reset_filter_restores_default (t : Transport) (f : Option Filter) :
    mightex_frame (mightex_apply_filter (mightex_reset_filter
      (mightex_set_filter ((mightex_read_frame t mightex_new).2) f))) =
    mightex_frame (mightex_apply_filter ((mightex_read_frame t mightex_new).2)) := by
  have h : (mightex_read_frame t mightex_new).2.activeFilter = some defaultFilter :=
    (read_frame_preserves_filter t mightex_new).trans rfl
  simp [mightex_set_filter, mightex_reset_filter, mightex_apply_filter,
    mightex_frame, h]

/-! C8 -/

/-- C8: the default filter is not idempotent: applying
`mightex_apply_filter` twice yields each sample minus 2 × darkMean
clamped at zero, which differs from a single application at every sample
exceeding the (positive) dark mean. -/
theorem default_filter_not_idempotent (s : Session)
    (hf : s.activeFilter = some defaultFilter)
    (i : Nat) (hi : i < s.store.working.length) :
    (((mightex_apply_filter (mightex_apply_filter s)).store.working.getD i 0 : ℤ) =
      max ((s.store.working.getD i 0 : ℤ) - 2 * (s.store.darkMean : ℤ)) 0) ∧
    (0 < s.store.darkMean → s.store.darkMean < s.store.working.getD i 0 →
      (mightex_apply_filter (mightex_apply_filter s)).store.working.getD i 0 ≠
        (mightex_apply_filter s).store.working.getD i 0) := by
  have he := apply_filter_frame_effect s
  have hf2 : (mightex_apply_filter s).activeFilter = some defaultFilter :=
    he.2.2.2.2.2.1.trans hf
  have hw1 : (mightex_apply_filter s).store.working =
      s.store.working.map (fun v => v - s.store.darkMean) :=
    apply_filter_default_working s hf
  have hw2 : (mightex_apply_filter (mightex_apply_filter s)).store.working =
      (mightex_apply_filter s).store.working.map (fun v => v - s.store.darkMean) := by
    rw [apply_filter_default_working _ hf2, he.2.2.1]
  have hlen1 : i < (mightex_apply_filter s).store.working.length := by
    rw [hw1, List.length_map]
    exact hi
  have g1 : (mightex_apply_filter s).store.working.getD i 0 =
      s.store.working.getD i 0 - s.store.darkMean := by
    rw [hw1, getD_map_of_lt _ _ _ hi]
  have g2 : (mightex_apply_filter (mightex_apply_filter s)).store.working.getD i 0 =
      s.store.working.getD i 0 - s.store.darkMean - s.store.darkMean := by
    rw [hw2, getD_map_of_lt _ _ _ hlen1, g1]
  constructor
  · rw [g2, Nat.sub_sub, natSub_cast_eq_max]
    congr 1
    push_cast
    ring
  · intro hd hv
    rw [g1, g2]
    omega

/-- C8 witness: on the one-sample session `S8` (sample 10, dark mean 3),
two applications give max (10 − 6) 0 = 4 ≠ 7, the single application. -/
theorem default_filter_not_idempotent_witness :
    (((mightex_apply_filter (mightex_apply_filter S8)).store.working.getD 0 0 : ℤ) =
      max ((S8.store.working.getD 0 0 : ℤ) - 2 * (S8.store.darkMean : ℤ)) 0) ∧
    (mightex_apply_filter (mightex_apply_filter S8)).store.working.getD 0 0 ≠
      (mightex_apply_filter S8).store.working.getD 0 0 := by
  have h := default_filter_not_idempotent S8 rfl 0 (by decide)
  exact ⟨h.1, h.2 (by decide) (by decide)⟩

/-! C4 and C5: the default estimator. -/

/-- `getD` on a replicated list at an in-range index is the replicated
value. -/
theorem getD_replicate_of_lt (n v i : Nat) (h : i < n) :
    (List.replicate n v).getD i 0 = v := by
  rw [List.getD_eq_getElem (List.replicate n v) 0 (by simpa using h)]
  simp

/-- The estimator accumulation loop computes, componentwise, the sums over
all indices of the thresholded contributions `value * index` and `value`
(the head of the buffer carrying index `i0`). -/
theorem estAccum_spec (thr : Nat) (w : List Nat) : ∀ i0 : Nat,
    estAccum thr w i0 =
      (∑ i ∈ Finset.range w.length,
          if thr ≤ w.getD i 0 then w.getD i 0 * (i0 + i) else 0,
       ∑ i ∈ Finset.range w.length,
          if thr ≤ w.getD i 0 then w.getD i 0 else 0) := by
  induction w with
  | nil =>
    intro i0
    simp [estAccum]
  | cons v rest ih =>
    intro i0
    have hsplit1 :
        (∑ i ∈ Finset.range (v :: rest).length,
            if thr ≤ (v :: rest).getD i 0
            then (v :: rest).getD i 0 * (i0 + i) else 0) =
        (∑ i ∈ Finset.range rest.length,
            if thr ≤ rest.getD i 0
            then rest.getD i 0 * ((i0 + 1) + i) else 0) +
        (if thr ≤ v then v * i0 else 0) := by
      rw [List.length_cons, Finset.sum_range_succ']
      congr 1
      refine Finset.sum_congr rfl fun i _ => ?_
      have hidx : i0 + (i + 1) = (i0 + 1) + i := by omega
      simp [List.getD_cons_succ, hidx]
    have hsplit2 :
        (∑ i ∈ Finset.range (v :: rest).length,
            if thr ≤ (v :: rest).getD i 0 then (v :: rest).getD i 0 else 0) =
        (∑ i ∈ Finset.range rest.length,
            if thr ≤ rest.getD i 0 then rest.getD i 0 else 0) +
        (if thr ≤ v then v else 0) := by
      rw [List.length_cons, Finset.sum_range_succ']
      congr 1
    rw [hsplit1, hsplit2]
    simp only [estAccum, ih (i0 + 1)]
    by_cases h : thr ≤ v
    · simp only [h, if_true]
      exact Prod.ext (Nat.add_comm _ _) (Nat.add_comm _ _)
    · simp [h]

/-- No working sample reaches the threshold: the denominator accumulated
by the estimator loop is zero. -/
theorem estAccum_den_zero (thr : Nat) (w : List Nat)
    (h : ∀ v ∈ w, v < thr) : ∀ i0 : Nat, (estAccum thr w i0).2 = 0 := by
  induction w with
  | nil =>
    intro i0
    simp [estAccum]
  | cons v rest ih =>
    intro i0
    have hv : ¬ thr ≤ v := by
      have := h v (by simp)
      omega
    simp only [estAccum, hv, if_false]
    exact ih (fun u hu => h u (by simp [hu])) (i0 + 1)

/-- C4: whenever some sample qualifies, the default estimator is exactly
the index-weighted centroid over the samples at or above the threshold
3 × darkMean — sub-threshold samples contribute to neither sum,
qualifying samples contribute `value × index` to the numerator and
`value` to the denominator; and on a uniform full-size buffer in which
every sample qualifies (value 900, dark mean 100, threshold 300) it
returns the arithmetic-center index (MTX_PIXELS − 1) / 2. -/
theorem default_estimator_centroid (d : Nat) (w : List Nat) :
    ((estAccum (3 * d) w 0).2 ≠ 0 →
      defaultEstimator d w =
        (∑ i ∈ Finset.range w.length,
            if 3 * d ≤ w.getD i 0 then (w.getD i 0 : ℚ) * i else 0) /
        (∑ i ∈ Finset.range w.length,
            if 3 * d ≤ w.getD i 0 then (w.getD i 0 : ℚ) else 0)) ∧
    defaultEstimator 100 (List.replicate MTX_PIXELS 900) =
      ((MTX_PIXELS : ℚ) - 1) / 2 := by
  constructor
  · intro hne
    have hs := estAccum_spec (3 * d) w 0
    rw [hs] at hne
    simp only [defaultEstimator, hs]
    rw [if_neg hne]
    have hnum :
        ((∑ i ∈ Finset.range w.length,
            if 3 * d ≤ w.getD i 0 then w.getD i 0 * (0 + i) else 0 : ℕ) : ℚ) =
        ∑ i ∈ Finset.range w.length,
            if 3 * d ≤ w.getD i 0 then (w.getD i 0 : ℚ) * i else 0 := by
      push_cast
      refine Finset.sum_congr rfl fun i _ => ?_
      split <;> simp
    have hden :
        ((∑ i ∈ Finset.range w.length,
            if 3 * d ≤ w.getD i 0 then w.getD i 0 else 0 : ℕ) : ℚ) =
        ∑ i ∈ Finset.range w.length,
            if 3 * d ≤ w.getD i 0 then (w.getD i 0 : ℚ) else 0 := by
      push_cast
      rfl
    rw [hnum, hden]
  · have hs := estAccum_spec (3 * 100) (List.replicate MTX_PIXELS 900) 0
    have hlen : (List.replicate MTX_PIXELS 900).length = MTX_PIXELS := by
      simp
    have hnum :
        (∑ i ∈ Finset.range (List.replicate MTX_PIXELS 900).length,
            if 3 * 100 ≤ (List.replicate MTX_PIXELS 900).getD i 0
            then (List.replicate MTX_PIXELS 900).getD i 0 * (0 + i) else 0) =
        900 * (MTX_PIXELS * (MTX_PIXELS - 1) / 2) := by
      rw [hlen, ← Finset.sum_range_id, Finset.mul_sum]
      refine Finset.sum_congr rfl fun i hi => ?_
      have hi4 : i < MTX_PIXELS := Finset.mem_range.mp hi
      rw [getD_replicate_of_lt _ _ _ hi4]
      norm_num
    have hden :
        (∑ i ∈ Finset.range (List.replicate MTX_PIXELS 900).length,
            if 3 * 100 ≤ (List.replicate MTX_PIXELS 900).getD i 0
            then (List.replicate MTX_PIXELS 900).getD i 0 else 0) =
        MTX_PIXELS * 900 := by
      rw [hlen]
      rw [Finset.sum_congr rfl fun i hi =>
        (by rw [getD_replicate_of_lt _ _ _ (Finset.mem_range.mp hi)]; norm_num :
          (if 3 * 100 ≤ (List.replicate MTX_PIXELS 900).getD i 0
           then (List.replicate MTX_PIXELS 900).getD i 0 else 0) = 900)]
      simp [Finset.sum_const, MTX_PIXELS]
    have hacc : estAccum (3 * 100) (List.replicate MTX_PIXELS 900) 0 =
        (900 * (MTX_PIXELS * (MTX_PIXELS - 1) / 2), MTX_PIXELS * 900) := by
      rw [hs, hnum, hden]
    simp only [defaultEstimator, hacc]
    rw [if_neg (by norm_num [MTX_PIXELS])]
    norm_num [MTX_PIXELS]

/-- C4 witness: on the one-sample buffer `[5]` with dark mean 0 the
denominator 5 is nonzero and the estimator equals the centroid formula. -/
theorem default_estimator_centroid_witness :
    defaultEstimator 0 [5] =
      (∑ i ∈ Finset.range ([5] : List Nat).length,
          if 3 * 0 ≤ ([5] : List Nat).getD i 0
          then (([5] : List Nat).getD i 0 : ℚ) * i else 0) /
      (∑ i ∈ Finset.range ([5] : List Nat).length,
          if 3 * 0 ≤ ([5] : List Nat).getD i 0
          then (([5] : List Nat).getD i 0 : ℚ) else 0) :=
  (default_estimator_centroid 0 [5]).1 (by decide)

/-- C5: when every working sample is strictly below the threshold
3 × darkMean the accumulated denominator is zero and the default
estimator returns exactly 0 (its zero-denominator guard; no division is
performed). -/
theorem default_estimator_zero_when_below_threshold (s : Session)
    (he : s.activeEstimator = defaultEstimator)
    (h : ∀ v ∈ s.store.working, v < 3 * s.store.darkMean) :
    mightex_apply_estimator s = 0 := by
  rw [mightex_apply_estimator, he]
  simp only [defaultEstimator]
  rw [estAccum_den_zero _ _ h 0]
  simp

/-- A session with every working sample strictly below the threshold
3 × darkMean = 3, default strategies active. -/
def S5 : Session :=
  { store := { raw := [0, 1, 2], working := [0, 1, 2], timestamp := 0, darkMean := 1 }
    exptime := 0
    mode := .MTX_NORMAL_MODE
    activeFilter := some defaultFilter
    activeEstimator := defaultEstimator }

/-- C5 witness: on `S5` (samples 0, 1, 2, all below threshold 3) the
estimator returns 0. -/
theorem default_estimator_zero_when_below_threshold_witness :
    mightex_apply_estimator S5 = 0 :=
  default_estimator_zero_when_below_threshold S5 rfl (by decide)

/-! C9 -/

/-- C9 counterexample: mightex1304.h declares `mightex_gpio_write` with
return type `void`, so an invalid register index cannot be surfaced to
the caller as a failure result: on transport `T1`, the write to the
out-of-range register 7 returns exactly the same (unique) result value as
the successful write to the valid register 0, while leaving the transport
untouched — the call is rejected, but no failure is observable in the
result, contrary to the claim. -/
theorem gpio_invalid_register_no_failure_surfaced :
    (mightex_gpio_write T1 7 1).1 = (mightex_gpio_write T1 0 1).1 ∧
    (mightex_gpio_write T1 7 1).2 = T1 :=
  ⟨rfl, rfl⟩

/-- C9 amended: a GPIO write or read with a register index outside
{0,1,2,3} is rejected before any transport call is issued — the
transport state, including its command log, is unchanged — but no
failure result is surfaced to the caller, since `mightex_gpio_write`
returns void (`Unit`) and `mightex_gpio_read` returns only a level with
no failure encoding. -/
theorem gpio_invalid_register_rejected (t : Transport) (reg val : Nat)
    (h : 4 ≤ reg) :
    (mightex_gpio_write t reg val).2 = t ∧
    (mightex_gpio_write t reg val).1 = () ∧
    (mightex_gpio_read t reg).2 = t := by
  have h4 : ¬ reg < 4 := by omega
  simp [mightex_gpio_write, mightex_gpio_read, h4]

/-- C9 witness: register 7 on transport `T1`: the write and the read
leave the transport (and its command log) unchanged. -/
theorem gpio_invalid_register_rejected_witness :
    (mightex_gpio_write T1 7 1).2 = T1 ∧ (mightex_gpio_read T1 7).2 = T1 := by
  have h := gpio_invalid_register_rejected T1 7 1 (by decide)
  exact ⟨h.1, h.2.2⟩

end Mightex
